import Mathlib

/-!
Verification of the Patient Risk Engine in src/model.py.

The engine is embedded shallowly: a pandas row becomes a Record of exact
rationals, a per-patient dataframe becomes a list of Records in date order,
and each function of model.py becomes a Lean function of the same name.
The fitted IsolationForest is external library code; model.py fixes its
seed (random_state = 42), so a fitted model's per-record decision_function
output is a deterministic function of the series.  We therefore abstract a
fitted model as the list of per-record anomaly scores it produces (the only
way detect_concern consumes it), and the batch driver takes the fitting
step as a function argument fit from series to score lists.
-/

namespace RiskEngine

/-- One measurement day for one patient, the fields of a row of the input
table that the engine reads.  Numeric cells are modelled as exact
rationals. -/
structure Record where
  patient_id : String
  sleep_hours : ℚ
  activity_level : ℚ
  mood_score : ℚ
  therapy_attended : ℚ
  heart_rate : ℚ
  stress_level : ℚ
  deriving DecidableEq, Repr

/-- Arithmetic mean of a list of rationals, as pandas Series.mean on a
nonempty column. -/
def mean (xs : List ℚ) : ℚ := xs.sum / xs.length

/-- The trailing n elements of a list, as pandas DataFrame.tail(n) and
iloc[-n:]; when the list is shorter than n it is returned whole. -/
def lastN (n : ℕ) {α : Type} (xs : List α) : List α := xs.drop (xs.length - n)

/-- Insert a rational into an already sorted list, keeping it sorted. -/
def insertSorted (x : ℚ) : List ℚ → List ℚ
  | [] => [x]
  | y :: ys => if x ≤ y then x :: y :: ys else y :: insertSorted x ys

/-- Ascending insertion sort on rationals. -/
def sortQ : List ℚ → List ℚ
  | [] => []
  | x :: xs => insertSorted x (sortQ xs)

/-- The 25th percentile of a list, as pandas Series.quantile(0.25) with the
default linear interpolation: with the values sorted ascending and
h = (n - 1) / 4, interpolate between the values at positions floor h and
floor h + 1. -/
def quantile25 (xs : List ℚ) : ℚ :=
  let s := sortQ xs
  if s.length = 0 then 0
  else
    let h : ℚ := ((s.length : ℚ) - 1) / 4
    let i : ℕ := (⌊h⌋).toNat
    let lo := s.getD i 0
    let hi := s.getD (i + 1) lo
    lo + (h - (i : ℚ)) * (hi - lo)

/-- Embeds detect_concern of src/model.py.  The argument scores is the list
of per-record anomaly scores the fitted model returns on the series
(model.decision_function(features)); the raw risk is their mean, and the
five baseline-deviation penalties are then subtracted in the order of the
source. -/
def detect_concern (scores : List ℚ) (df : List Record) : ℚ :=
  let risk_score := mean scores
  let baseline_sleep := mean (df.map (fun r => r.sleep_hours))
  let baseline_mood := mean (df.map (fun r => r.mood_score))
  let baseline_hr := mean (df.map (fun r => r.heart_rate))
  let recent_sleep := mean ((lastN 3 df).map (fun r => r.sleep_hours))
  let recent_mood := mean ((lastN 3 df).map (fun r => r.mood_score))
  let recent_hr := mean ((lastN 3 df).map (fun r => r.heart_rate))
  let recent_stress := mean ((lastN 3 df).map (fun r => r.stress_level))
  let recent_activity := mean ((lastN 3 df).map (fun r => r.activity_level))
  let r1 := if recent_sleep < 0.7 * baseline_sleep then risk_score - 0.30 else risk_score
  let r2 := if recent_hr > 1.15 * baseline_hr then r1 - 0.25 else r1
  let r3 := if recent_stress > 7 then r2 - 0.30 else r2
  let r4 := if recent_activity < quantile25 (df.map (fun r => r.activity_level)) then r3 - 0.15 else r3
  let r5 := if recent_mood < 0.7 * baseline_mood then r4 - 0.10 else r4
  r5

/-- Embeds has_made_progress of src/model.py: false on fewer than 8
records, otherwise the strict comparison of the mean mood of the last 4
records against the mean mood of the 4 records before them
(iloc[-8:-4]). -/
def has_made_progress (df : List Record) : Bool :=
  if df.length < 8 then false
  else
    let recent := mean ((lastN 4 df).map (fun r => r.mood_score))
    let previous := mean (((df.drop (df.length - 8)).take 4).map (fun r => r.mood_score))
    decide (recent > previous)

/-- The six boolean deviation flags computed by summarize_changes in
src/model.py, in source order. -/
structure Summary where
  sleep_drop : Bool
  low_activity : Bool
  low_mood : Bool
  high_hr : Bool
  high_stress : Bool
  missed_therapy : Bool
  deriving DecidableEq, Repr

/-- Embeds summarize_changes of src/model.py: the six flags over the
trailing 3 records. -/
def summarize_changes (df : List Record) : Summary :=
  let recent := lastN 3 df
  { sleep_drop := decide (mean (recent.map (fun r => r.sleep_hours)) < 4),
    low_activity := decide (mean (recent.map (fun r => r.activity_level))
      < quantile25 (df.map (fun r => r.activity_level))),
    low_mood := decide (mean (recent.map (fun r => r.mood_score)) < 2),
    high_hr := decide (mean (recent.map (fun r => r.heart_rate)) > 100),
    high_stress := decide (mean (recent.map (fun r => r.stress_level)) > 7),
    missed_therapy := decide ((recent.map (fun r => r.therapy_attended)).sum < 2) }

/-- Embeds the hard_escalation_flags sum of generate_insight in
src/model.py: Python adds the three booleans as integers. -/
def hard_escalation_flags (summary : Summary) : ℕ :=
  summary.high_hr.toNat + summary.high_stress.toNat + summary.missed_therapy.toNat

/-- The reasons list built by generate_insight in src/model.py, in source
order. -/
def reasonList (summary : Summary) : List String :=
  (if summary.sleep_drop then ["reduced sleep"] else []) ++
  (if summary.low_activity then ["low activity levels"] else []) ++
  (if summary.low_mood then ["persistently low mood"] else []) ++
  (if summary.high_hr then ["elevated heart rate"] else []) ++
  (if summary.high_stress then ["high stress levels"] else []) ++
  (if summary.missed_therapy then ["missed therapy sessions"] else [])

/-- The reason_text string of generate_insight in src/model.py: the comma
join of the reasons, or the fixed fallback when no flag is set. -/
def reason_text (summary : Summary) : String :=
  if reasonList summary = [] then "no significant behavioral changes"
  else String.intercalate ", " (reasonList summary)

/-- Embeds generate_insight of src/model.py.  The source returns a single
formatted string (not a pair); the tier is only visible as the prefix of
the string. -/
def generate_insight (risk_score : ℚ) (progress : Bool) (summary : Summary) : String :=
  if risk_score < -0.2 ∧ 1 ≤ hard_escalation_flags summary ∧ progress = false then
    "High risk: Patient shows " ++ (reason_text summary ++ ". Immediate nurse review recommended.")
  else if risk_score < -0.2 then
    "Medium risk: Behavioral changes detected (" ++ (reason_text summary ++ "). Close monitoring advised.")
  else
    "Stable: No concerning behavioral changes detected. Continue routine monitoring."

/-- The three-tier risk classification of the specification. -/
inductive Tier where
  | High
  | Medium
  | Stable
  deriving DecidableEq, Repr

/-- The tier selected by the branch structure of generate_insight in
src/model.py: same conditions, in the same first-match order, returning the
tier tag instead of the message. -/
def classify (risk_score : ℚ) (progress : Bool) (summary : Summary) : Tier :=
  if risk_score < -0.2 ∧ 1 ≤ hard_escalation_flags summary ∧ progress = false then Tier.High
  else if risk_score < -0.2 then Tier.Medium
  else Tier.Stable

/-- The message template of generate_insight in src/model.py, keyed by
tier. -/
def tierMessage : Tier → String → String
  | Tier.High, rt => "High risk: Patient shows " ++ (rt ++ ". Immediate nurse review recommended.")
  | Tier.Medium, rt => "Medium risk: Behavioral changes detected (" ++ (rt ++ "). Close monitoring advised.")
  | Tier.Stable, _ => "Stable: No concerning behavioral changes detected. Continue routine monitoring."

/-- A cell value of the result table of analyze_all_patients. -/
inductive Value where
  | str (s : String)
  | num (q : ℚ)
  | bool (b : Bool)
  deriving DecidableEq, Repr

/-- One output row of analyze_all_patients, the Python dict modelled as an
association list from column name to cell value. -/
abbrev RiskRow := List (String × Value)

/-- Python round(x, 3) modelled over exact rationals: round to the nearest
multiple of 1/1000. -/
def roundTo3 (q : ℚ) : ℚ := (round (q * 1000) : ℚ) / 1000

/-- Append a patient id to the accumulator unless it is already there. -/
def insertUnique (acc : List String) (pid : String) : List String :=
  if pid ∈ acc then acc else acc ++ [pid]

/-- The distinct patient ids of the table in order of first appearance, as
pandas Series.unique. -/
def uniquePids (df : List Record) : List String :=
  df.foldl (fun acc r => insertUnique acc r.patient_id) []

/-- The rows of the table belonging to one patient, in table order, as the
boolean-mask selection in analyze_all_patients. -/
def seriesOf (df : List Record) (pid : String) : List Record :=
  df.filter (fun r => decide (r.patient_id = pid))

/-- The per-patient body of the analyze_all_patients loop in src/model.py:
fit, score, track progress, summarize, explain, and build the result row.
The row holds patient_id, the risk score rounded to 3 decimals, progress,
and the insight string - and no other field. -/
def runPipeline (fit : List Record → List ℚ) (pid : String) (patient_df : List Record) : RiskRow :=
  let scores := fit patient_df
  let risk := detect_concern scores patient_df
  let progress := has_made_progress patient_df
  let summary := summarize_changes patient_df
  let insight := generate_insight risk progress summary
  [("patient_id", Value.str pid),
   ("risk_score", Value.num (roundTo3 risk)),
   ("progress", Value.bool progress),
   ("insight", Value.str insight)]

/-- Embeds analyze_all_patients of src/model.py: for each distinct patient
id in first-appearance order, skip the patient when the series has fewer
than 5 records, otherwise run the pipeline and keep the result row. -/
def analyze_all_patients (fit : List Record → List ℚ) (df : List Record) : List RiskRow :=
  (uniquePids df).filterMap (fun pid =>
    if (seriesOf df pid).length < 5 then none
    else some (runPipeline fit pid (seriesOf df pid)))

/-- Prefix test on char lists used to model str.startswith. -/
def chPre : List Char → List Char → Bool
  | [], _ => true
  | _ :: _, [] => false
  | a :: as, b :: bs => (a == b) && chPre as bs

/-- Python str.startswith, on the underlying character lists. -/
def strStartsWith (s p : String) : Bool := chPre p.data s.data

/-- The insight cell of a result row. -/
def insightOf (row : RiskRow) : String :=
  match row.lookup "insight" with
  | some (Value.str s) => s
  | _ => ""

/-- The risk_score cell of a result row. -/
def riskOf (row : RiskRow) : ℚ :=
  match row.lookup "risk_score" with
  | some (Value.num q) => q
  | _ => 0

/-- The patient_id cell of a result row. -/
def pidOf (row : RiskRow) : String :=
  match row.lookup "patient_id" with
  | some (Value.str s) => s
  | _ => ""

/-- Insert a row into a list of rows sorted ascending by risk_score. -/
def insertByRisk (row : RiskRow) : List RiskRow → List RiskRow
  | [] => [row]
  | r :: rs => if riskOf row ≤ riskOf r then row :: r :: rs else r :: insertByRisk row rs

/-- Sort rows ascending by risk_score, as sort_values in the standalone
triage run of src/model.py. -/
def sortByRisk : List RiskRow → List RiskRow
  | [] => []
  | r :: rs => insertByRisk r (sortByRisk rs)

/-- The high-risk triage view of the standalone run of src/model.py: keep
the rows whose insight starts with the High prefix, sorted ascending by
risk_score. -/
def high_risk_view (rows : List RiskRow) : List RiskRow :=
  sortByRisk (rows.filter (fun row => strStartsWith (insightOf row) "High risk"))

/-- The five penalty conditions of detect_concern, evaluated on a series:
they depend only on the series, not on the anomaly scores. -/
structure Triggers where
  t_sleep : Bool
  t_hr : Bool
  t_stress : Bool
  t_activity : Bool
  t_mood : Bool
  deriving DecidableEq, Repr

/-- The penalty conditions of detect_concern, in source order. -/
def triggers (df : List Record) : Triggers :=
  { t_sleep := decide (mean ((lastN 3 df).map (fun r => r.sleep_hours))
      < 0.7 * mean (df.map (fun r => r.sleep_hours))),
    t_hr := decide (mean ((lastN 3 df).map (fun r => r.heart_rate))
      > 1.15 * mean (df.map (fun r => r.heart_rate))),
    t_stress := decide (mean ((lastN 3 df).map (fun r => r.stress_level)) > 7),
    t_activity := decide (mean ((lastN 3 df).map (fun r => r.activity_level))
      < quantile25 (df.map (fun r => r.activity_level))),
    t_mood := decide (mean ((lastN 3 df).map (fun r => r.mood_score))
      < 0.7 * mean (df.map (fun r => r.mood_score))) }

/-- Total penalty subtracted by detect_concern for a given set of triggered
conditions. -/
def penaltyTotal (t : Triggers) : ℚ :=
  (if t.t_sleep then (0.30 : ℚ) else 0) + (if t.t_hr then (0.25 : ℚ) else 0)
  + (if t.t_stress then (0.30 : ℚ) else 0) + (if t.t_activity then (0.15 : ℚ) else 0)
  + (if t.t_mood then (0.10 : ℚ) else 0)

/-- Pointwise containment of triggered penalty conditions: every condition
triggered in a is also triggered in b. -/
def subTriggers (a b : Triggers) : Prop :=
  (a.t_sleep = true → b.t_sleep = true) ∧ (a.t_hr = true → b.t_hr = true) ∧
  (a.t_stress = true → b.t_stress = true) ∧ (a.t_activity = true → b.t_activity = true) ∧
  (a.t_mood = true → b.t_mood = true)

lemma detect_concern_eq (scores : List ℚ) (df : List Record) :
    detect_concern scores df = mean scores - penaltyTotal (triggers df) := by
  simp only [detect_concern, triggers, penaltyTotal, decide_eq_true_eq]
  split_ifs <;> ring

lemma ite_nonneg_mono (p q : Bool) (c : ℚ) (hc : 0 ≤ c) (h : p = true → q = true) :
    (if p then c else 0) ≤ (if q then c else 0) := by
  cases p
  · cases q <;> simp [hc]
  · rw [h rfl]

lemma penaltyTotal_mono (a b : Triggers) (h : subTriggers a b) :
    penaltyTotal a ≤ penaltyTotal b := by
  obtain ⟨h1, h2, h3, h4, h5⟩ := h
  unfold penaltyTotal
  exact add_le_add (add_le_add (add_le_add (add_le_add
    (ite_nonneg_mono _ _ _ (by norm_num) h1) (ite_nonneg_mono _ _ _ (by norm_num) h2))
    (ite_nonneg_mono _ _ _ (by norm_num) h3)) (ite_nonneg_mono _ _ _ (by norm_num) h4))
    (ite_nonneg_mono _ _ _ (by norm_num) h5)

lemma flagDiffOf (a b : Bool) (h : a = true → b = true) (ne : a ≠ b) :
    a = false ∧ b = true := by
  cases a <;> cases b <;> simp_all

lemma diffFlag (a1 a2 a3 a4 a5 b1 b2 b3 b4 b5 : Bool)
    (h1 : a1 = true → b1 = true) (h2 : a2 = true → b2 = true)
    (h3 : a3 = true → b3 = true) (h4 : a4 = true → b4 = true)
    (h5 : a5 = true → b5 = true)
    (hne : ¬(a1 = b1 ∧ a2 = b2 ∧ a3 = b3 ∧ a4 = b4 ∧ a5 = b5)) :
    (a1 = false ∧ b1 = true) ∨ (a2 = false ∧ b2 = true) ∨ (a3 = false ∧ b3 = true)
      ∨ (a4 = false ∧ b4 = true) ∨ (a5 = false ∧ b5 = true) := by
  by_cases e1 : a1 = b1
  · by_cases e2 : a2 = b2
    · by_cases e3 : a3 = b3
      · by_cases e4 : a4 = b4
        · by_cases e5 : a5 = b5
          · exact absurd ⟨e1, e2, e3, e4, e5⟩ hne
          · exact Or.inr (Or.inr (Or.inr (Or.inr (flagDiffOf a5 b5 h5 e5))))
        · exact Or.inr (Or.inr (Or.inr (Or.inl (flagDiffOf a4 b4 h4 e4))))
      · exact Or.inr (Or.inr (Or.inl (flagDiffOf a3 b3 h3 e3)))
    · exact Or.inr (Or.inl (flagDiffOf a2 b2 h2 e2))
  · exact Or.inl (flagDiffOf a1 b1 h1 e1)

lemma penaltyTotal_strict (a b : Triggers) (h : subTriggers a b) (hne : a ≠ b) :
    penaltyTotal a < penaltyTotal b := by
  obtain ⟨a1, a2, a3, a4, a5⟩ := a
  obtain ⟨b1, b2, b3, b4, b5⟩ := b
  obtain ⟨h1, h2, h3, h4, h5⟩ := h
  have hne' : ¬(a1 = b1 ∧ a2 = b2 ∧ a3 = b3 ∧ a4 = b4 ∧ a5 = b5) := by
    rintro ⟨e1, e2, e3, e4, e5⟩
    exact hne (by rw [e1, e2, e3, e4, e5])
  have m1 := ite_nonneg_mono a1 b1 (0.30 : ℚ) (by norm_num) h1
  have m2 := ite_nonneg_mono a2 b2 (0.25 : ℚ) (by norm_num) h2
  have m3 := ite_nonneg_mono a3 b3 (0.30 : ℚ) (by norm_num) h3
  have m4 := ite_nonneg_mono a4 b4 (0.15 : ℚ) (by norm_num) h4
  have m5 := ite_nonneg_mono a5 b5 (0.10 : ℚ) (by norm_num) h5
  simp only [penaltyTotal]
  rcases diffFlag a1 a2 a3 a4 a5 b1 b2 b3 b4 b5 h1 h2 h3 h4 h5 hne' with
      ⟨ha, hb⟩ | ⟨ha, hb⟩ | ⟨ha, hb⟩ | ⟨ha, hb⟩ | ⟨ha, hb⟩ <;>
    rw [ha, hb] <;> norm_num <;> linarith [m1, m2, m3, m4, m5]

/-- A one-patient series whose trailing records carry high stress, used as
a concrete example of a negative penalized score. -/
def dfNeg : List Record := [⟨"p", 7, 5, 3, 1, 70, 9⟩]

/-- C2: detect_concern returns the mean anomaly score of the whole series
minus exactly the penalties whose conditions hold, with the stated
magnitudes, and the result is not clamped below: it can be negative. -/
theorem detect_concern_penalty_sum :
    (∀ (scores : List ℚ) (df : List Record),
      detect_concern scores df =
        mean scores
        - (if mean ((lastN 3 df).map (fun r => r.sleep_hours))
              < 0.7 * mean (df.map (fun r => r.sleep_hours)) then (0.30 : ℚ) else 0)
        - (if mean ((lastN 3 df).map (fun r => r.heart_rate))
              > 1.15 * mean (df.map (fun r => r.heart_rate)) then (0.25 : ℚ) else 0)
        - (if mean ((lastN 3 df).map (fun r => r.stress_level)) > 7 then (0.30 : ℚ) else 0)
        - (if mean ((lastN 3 df).map (fun r => r.activity_level))
              < quantile25 (df.map (fun r => r.activity_level)) then (0.15 : ℚ) else 0)
        - (if mean ((lastN 3 df).map (fun r => r.mood_score))
              < 0.7 * mean (df.map (fun r => r.mood_score)) then (0.10 : ℚ) else 0)) ∧
    detect_concern [0] dfNeg < 0 := by
  constructor
  · intro scores df
    simp only [detect_concern]
    split_ifs <;> ring
  · norm_num [detect_concern, dfNeg, mean, lastN, quantile25, sortQ, insertSorted]

/-- C8: penalty stacking is monotone: with the same raw mean anomaly score,
a run whose triggered penalty conditions contain those of another run
scores no higher, and strictly lower when it triggers at least one
additional condition. -/
theorem penalty_stacking_monotone (scores1 : List ℚ) (df1 : List Record)
    (scores2 : List ℚ) (df2 : List Record)
    (hmean : mean scores1 = mean scores2)
    (hsub : subTriggers (triggers df2) (triggers df1)) :
    detect_concern scores1 df1 ≤ detect_concern scores2 df2 ∧
      (triggers df2 ≠ triggers df1 →
        detect_concern scores1 df1 < detect_concern scores2 df2) := by
  rw [detect_concern_eq, detect_concern_eq, hmean]
  refine ⟨?_, fun hne => ?_⟩
  · have := penaltyTotal_mono _ _ hsub
    linarith
  · have := penaltyTotal_strict _ _ hsub hne
    linarith

/-- A calm baseline record. -/
def calmRec : Record := ⟨"p", 7, 5, 3, 1, 70, 3⟩

/-- A record with spiked stress. -/
def stressRec : Record := ⟨"p", 7, 5, 3, 1, 70, 9⟩

/-- A five-record calm series: no penalty condition triggers. -/
def w8dfCalm : List Record := [calmRec, calmRec, calmRec, calmRec, calmRec]

/-- A five-record series whose last three records spike stress: exactly the
stress penalty condition triggers. -/
def w8dfStress : List Record := [calmRec, calmRec, stressRec, stressRec, stressRec]

/-- A constant anomaly score list shared by the two runs. -/
def w8scores : List ℚ := [0, 0, 0, 0, 0]

theorem penalty_stacking_monotone_witness :
    (detect_concern w8scores w8dfStress ≤ detect_concern w8scores w8dfCalm ∧
      (triggers w8dfCalm ≠ triggers w8dfStress →
        detect_concern w8scores w8dfStress < detect_concern w8scores w8dfCalm)) ∧
    detect_concern w8scores w8dfStress < detect_concern w8scores w8dfCalm := by
  have hA : (triggers w8dfStress).t_stress = true := by
    norm_num [triggers, mean, lastN, w8dfStress, calmRec, stressRec]
  have hB : (triggers w8dfCalm).t_stress = false := by
    norm_num [triggers, mean, lastN, w8dfCalm, calmRec]
  have hsub : subTriggers (triggers w8dfCalm) (triggers w8dfStress) := by
    norm_num [subTriggers, triggers, mean, lastN, quantile25, sortQ, insertSorted,
      w8dfCalm, w8dfStress, calmRec, stressRec]
  have hne : triggers w8dfCalm ≠ triggers w8dfStress := by
    intro h
    rw [h, hA] at hB
    simp at hB
  have main := penalty_stacking_monotone w8scores w8dfStress w8scores w8dfCalm rfl hsub
  exact ⟨main, main.2 hne⟩

lemma hard_ge_one_iff (s : Summary) :
    1 ≤ hard_escalation_flags s ↔
      (s.high_hr = true ∨ s.high_stress = true ∨ s.missed_therapy = true) := by
  obtain ⟨f1, f2, f3, f4, f5, f6⟩ := s
  cases f4 <;> cases f5 <;> cases f6 <;> simp [hard_escalation_flags]

lemma generate_insight_eq_tierMessage (r : ℚ) (p : Bool) (s : Summary) :
    generate_insight r p s = tierMessage (classify r p s) (reason_text s) := by
  unfold generate_insight classify
  split_ifs <;> rfl

/-- C1: generate_insight classifies by first match: High when the score is
below -0.2 with a hard escalation flag set and no progress; Medium when the
score is below -0.2 otherwise; Stable otherwise.  Hence High forces a score
below -0.2 and Stable forces a score of at least -0.2. -/
theorem classify_first_match (r : ℚ) (p : Bool) (s : Summary) :
    (classify r p s = Tier.High ↔
      r < -0.2 ∧ (s.high_hr = true ∨ s.high_stress = true ∨ s.missed_therapy = true) ∧ p = false) ∧
    (classify r p s = Tier.Medium ↔
      r < -0.2 ∧ ¬((s.high_hr = true ∨ s.high_stress = true ∨ s.missed_therapy = true) ∧ p = false)) ∧
    (classify r p s = Tier.Stable ↔ -0.2 ≤ r) ∧
    (classify r p s = Tier.High → r < -0.2) ∧
    (classify r p s = Tier.Stable → -0.2 ≤ r) ∧
    generate_insight r p s = tierMessage (classify r p s) (reason_text s) := by
  rw [← hard_ge_one_iff s]
  refine ⟨?_, ?_, ?_, ?_, ?_, generate_insight_eq_tierMessage r p s⟩ <;> unfold classify
  · split_ifs with h1 h2
    · exact iff_of_true rfl ⟨h1.1, h1.2.1, h1.2.2⟩
    · exact iff_of_false (by simp) h1
    · exact iff_of_false (by simp) h1
  · split_ifs with h1 h2
    · exact iff_of_false (by simp) (fun h => h.2 ⟨h1.2.1, h1.2.2⟩)
    · exact iff_of_true rfl ⟨h2, fun hc => h1 ⟨h2, hc.1, hc.2⟩⟩
    · exact iff_of_false (by simp) (fun h => h2 h.1)
  · split_ifs with h1 h2
    · exact iff_of_false (by simp) (fun hle => absurd h1.1 (not_lt.mpr hle))
    · exact iff_of_false (by simp) (not_le.mpr h2)
    · exact iff_of_true rfl (not_lt.mp h2)
  · split_ifs with h1 h2
    · exact fun _ => h1.1
    · exact fun h => absurd h (by simp)
    · exact fun h => absurd h (by simp)
  · split_ifs with h1 h2
    · exact fun h => absurd h (by simp)
    · exact fun h => absurd h (by simp)
    · exact fun _ => not_lt.mp h2

/-- A summary with only the high heart rate flag set. -/
def sHighHr : Summary := ⟨false, false, false, true, false, false⟩

theorem classify_first_match_witness :
    classify (-1) false sHighHr = Tier.High ∧ ((-1 : ℚ) < -0.2) :=
  ⟨(classify_first_match (-1) false sHighHr).1.mpr ⟨by norm_num, Or.inl rfl, rfl⟩,
   by norm_num⟩

/-- A summary in which low_mood is the only flag set. -/
def sMoodOnly : Summary := ⟨false, false, true, false, false, false⟩

/-- C7: when low_mood is the only set flag and the score is below -0.2 with
no progress, the classification is Medium and never High: low mood is
excluded from the hard escalation count. -/
theorem mood_alone_medium (r : ℚ) (s : Summary)
    (hs : s = sMoodOnly) (hr : r < -0.2) :
    classify r false s = Tier.Medium ∧ classify r false s ≠ Tier.High ∧
    generate_insight r false s =
      "Medium risk: Behavioral changes detected (persistently low mood). Close monitoring advised." := by
  subst hs
  have hno : ¬(r < -0.2 ∧ 1 ≤ hard_escalation_flags sMoodOnly ∧ (false : Bool) = false) := by
    rintro ⟨-, hcount, -⟩
    simp [hard_escalation_flags, sMoodOnly] at hcount
  refine ⟨?_, ?_, ?_⟩
  · unfold classify
    rw [if_neg hno, if_pos hr]
  · unfold classify
    rw [if_neg hno, if_pos hr]
    simp
  · unfold generate_insight
    rw [if_neg hno, if_pos hr]
    rfl

theorem mood_alone_medium_witness :
    classify (-1) false sMoodOnly = Tier.Medium ∧ classify (-1) false sMoodOnly ≠ Tier.High ∧
    generate_insight (-1) false sMoodOnly =
      "Medium risk: Behavioral changes detected (persistently low mood). Close monitoring advised." :=
  mood_alone_medium (-1) sMoodOnly rfl (by norm_num)

/-- C3: has_made_progress is false without error below 8 records (so in
particular on exactly 7), and on 8 or more records it is true exactly when
the mean mood of the last 4 records strictly exceeds the mean mood of the 4
records before them. -/
theorem has_made_progress_spec (df : List Record) :
    (df.length < 8 → has_made_progress df = false) ∧
    (8 ≤ df.length →
      (has_made_progress df = true ↔
        mean ((lastN 4 df).map (fun r => r.mood_score)) >
          mean (((df.drop (df.length - 8)).take 4).map (fun r => r.mood_score)))) ∧
    (df.length = 7 → has_made_progress df = false) := by
  refine ⟨fun h => ?_, fun h => ?_, fun h => ?_⟩
  · simp [has_made_progress, h]
  · have h' : ¬(df.length < 8) := not_lt.mpr h
    simp [has_made_progress, h']
  · simp [has_made_progress, h]

/-- A record with the given mood and otherwise calm values. -/
def mRec (m : ℚ) : Record := ⟨"m", 7, 5, m, 1, 70, 3⟩

/-- A seven-record constant-mood series. -/
def mood7 : List Record := [mRec 3, mRec 3, mRec 3, mRec 3, mRec 3, mRec 3, mRec 3]

/-- An eight-record series whose last four moods exceed the prior four. -/
def mood8 : List Record := [mRec 2, mRec 2, mRec 2, mRec 2, mRec 3, mRec 3, mRec 3, mRec 3]

theorem has_made_progress_spec_witness :
    has_made_progress mood7 = false ∧ has_made_progress mood8 = true := by
  constructor
  · exact (has_made_progress_spec mood7).2.2 (by decide)
  · exact ((has_made_progress_spec mood8).2.1 (by decide)).mpr
      (by norm_num [mood8, mRec, mean, lastN])

/-- C4: the six booleans of summarize_changes are exactly the stated
trailing-3 window tests. -/
theorem summarize_changes_spec (df : List Record) :
    ((summarize_changes df).sleep_drop = true ↔
      mean ((lastN 3 df).map (fun r => r.sleep_hours)) < 4) ∧
    ((summarize_changes df).low_activity = true ↔
      mean ((lastN 3 df).map (fun r => r.activity_level))
        < quantile25 (df.map (fun r => r.activity_level))) ∧
    ((summarize_changes df).low_mood = true ↔
      mean ((lastN 3 df).map (fun r => r.mood_score)) < 2) ∧
    ((summarize_changes df).high_hr = true ↔
      mean ((lastN 3 df).map (fun r => r.heart_rate)) > 100) ∧
    ((summarize_changes df).high_stress = true ↔
      mean ((lastN 3 df).map (fun r => r.stress_level)) > 7) ∧
    ((summarize_changes df).missed_therapy = true ↔
      ((lastN 3 df).map (fun r => r.therapy_attended)).sum < 2) := by
  simp [summarize_changes]

/-- A degenerate anomaly model that scores every record 0, usable as the
fit argument when exercising the batch driver on concrete data. -/
def fitZero : List Record → List ℚ := fun df => df.map (fun _ => 0)

lemma pidOf_runPipeline (fit : List Record → List ℚ) (pid : String) (s : List Record) :
    pidOf (runPipeline fit pid s) = pid := rfl

lemma lookup_risk_runPipeline (fit : List Record → List ℚ) (pid : String) (s : List Record) :
    (runPipeline fit pid s).lookup "risk_score" =
      some (Value.num (roundTo3 (detect_concern (fit s) s))) := rfl

lemma lookup_insight_runPipeline (fit : List Record → List ℚ) (pid : String) (s : List Record) :
    (runPipeline fit pid s).lookup "insight" =
      some (Value.str (generate_insight (detect_concern (fit s) s)
        (has_made_progress s) (summarize_changes s))) := rfl

lemma keys_runPipeline (fit : List Record → List ℚ) (pid : String) (s : List Record) :
    (runPipeline fit pid s).map Prod.fst =
      ["patient_id", "risk_score", "progress", "insight"] := rfl

lemma nodup_insertUnique (acc : List String) (x : String) (h : acc.Nodup) :
    (insertUnique acc x).Nodup := by
  unfold insertUnique
  split_ifs with hx
  · exact h
  · simp [List.nodup_append, h, hx]

lemma nodup_uniquePidsAux (df : List Record) :
    ∀ acc : List String, acc.Nodup →
      (df.foldl (fun acc r => insertUnique acc r.patient_id) acc).Nodup := by
  induction df with
  | nil => exact fun acc h => h
  | cons r rest ih => exact fun acc h => ih _ (nodup_insertUnique acc r.patient_id h)

lemma nodup_uniquePids (df : List Record) : (uniquePids df).Nodup :=
  nodup_uniquePidsAux df [] List.nodup_nil

lemma countP_filterMap_pid (g : String → Option RiskRow)
    (hg : ∀ x row, g x = some row → pidOf row = x) :
    ∀ l : List String, l.Nodup → ∀ pid : String,
      (l.filterMap g).countP (fun row => decide (pidOf row = pid)) =
        if pid ∈ l ∧ (g pid).isSome then 1 else 0 := by
  intro l
  induction l with
  | nil => intro _ pid; simp
  | cons x xs ih =>
    intro hnd pid
    obtain ⟨hx, hxs⟩ := List.nodup_cons.mp hnd
    by_cases hpx : pid = x
    · subst hpx
      cases hgx : g pid with
      | none =>
        simp only [List.filterMap_cons, hgx]
        rw [ih hxs pid]
        simp [hgx, hx]
      | some row =>
        simp only [List.filterMap_cons, hgx]
        rw [List.countP_cons, ih hxs pid]
        have hpid : pidOf row = pid := hg pid row hgx
        simp [hpid, hx, hgx]
    · cases hgx : g x with
      | none =>
        simp only [List.filterMap_cons, hgx]
        rw [ih hxs pid]
        simp [List.mem_cons, hpx]
      | some row =>
        simp only [List.filterMap_cons, hgx]
        rw [List.countP_cons, ih hxs pid]
        have hpid : pidOf row = x := hg x row hgx
        simp [hpid, hpx, List.mem_cons, Ne.symm hpx]

lemma analyze_hg (fit : List Record → List ℚ) (df : List Record) :
    ∀ x row, (if (seriesOf df x).length < 5 then none
        else some (runPipeline fit x (seriesOf df x))) = some row → pidOf row = x := by
  intro x row h
  split_ifs at h with hx
  injection h with h'
  rw [← h']
  exact pidOf_runPipeline fit x (seriesOf df x)

lemma mem_analyze_eq (fit : List Record → List ℚ) (df : List Record) (row : RiskRow)
    (h : row ∈ analyze_all_patients fit df) :
    ∃ pid, pid ∈ uniquePids df ∧ 5 ≤ (seriesOf df pid).length ∧
      row = runPipeline fit pid (seriesOf df pid) := by
  unfold analyze_all_patients at h
  simp only [List.mem_filterMap] at h
  obtain ⟨x, hxmem, hx⟩ := h
  refine ⟨x, hxmem, ?_, ?_⟩
  · by_contra hlt
    rw [if_pos (not_le.mp hlt)] at hx
    exact Option.noConfusion hx
  · by_cases hshort : (seriesOf df x).length < 5
    · rw [if_pos hshort] at hx
      exact Option.noConfusion hx
    · rw [if_neg hshort] at hx
      injection hx with h'
      exact h'.symm

/-- C6: analyze_all_patients silently skips every patient whose series has
fewer than 5 records and yields exactly one result row for every patient
with at least 5, with its risk score rounded to 3 decimal places. -/
theorem analyze_batch_spec (fit : List Record → List ℚ) (df : List Record) (pid : String) :
    ((analyze_all_patients fit df).countP (fun row => decide (pidOf row = pid)) =
      if pid ∈ uniquePids df ∧ 5 ≤ (seriesOf df pid).length then 1 else 0) ∧
    (∀ row ∈ analyze_all_patients fit df, pidOf row = pid →
      row = runPipeline fit pid (seriesOf df pid) ∧
      row.lookup "risk_score" =
        some (Value.num (roundTo3 (detect_concern (fit (seriesOf df pid))
          (seriesOf df pid))))) := by
  constructor
  · unfold analyze_all_patients
    rw [countP_filterMap_pid _ (analyze_hg fit df) (uniquePids df) (nodup_uniquePids df) pid]
    by_cases hl : (seriesOf df pid).length < 5
    · simp [hl, not_le.mpr hl]
    · simp [hl, not_lt.mp hl]
  · intro row hrow hpid
    obtain ⟨x, hxmem, hxlen, hxeq⟩ := mem_analyze_eq fit df row hrow
    have hpx : pidOf row = x := by rw [hxeq]; exact pidOf_runPipeline fit x (seriesOf df x)
    have hx : x = pid := by rw [← hpx, hpid]
    subst hx
    exact ⟨hxeq, by rw [hxeq]; exact lookup_risk_runPipeline fit x (seriesOf df x)⟩

/-- A calm record for patient a. -/
def aRec : Record := ⟨"a", 7, 5, 3, 1, 70, 3⟩

/-- A calm record for patient b. -/
def bRec : Record := ⟨"b", 7, 5, 3, 1, 70, 3⟩

/-- A table with 4 records for patient a and 5 for patient b. -/
def dfBatch : List Record := [aRec, aRec, aRec, aRec, bRec, bRec, bRec, bRec, bRec]

theorem analyze_batch_spec_witness :
    (analyze_all_patients fitZero dfBatch).countP (fun row => decide (pidOf row = "a")) = 0 ∧
    (analyze_all_patients fitZero dfBatch).countP (fun row => decide (pidOf row = "b")) = 1 := by
  have h1 : uniquePids dfBatch = ["a", "b"] := rfl
  have h2 : (seriesOf dfBatch "a").length = 4 := rfl
  have h3 : (seriesOf dfBatch "b").length = 5 := rfl
  constructor
  · rw [(analyze_batch_spec fitZero dfBatch "a").1, h1, h2]
    norm_num
  · rw [(analyze_batch_spec fitZero dfBatch "b").1, h1, h3]
    norm_num

/-- The tier label with which each insight message begins. -/
def tierTag : Tier → String
  | Tier.High => "High risk"
  | Tier.Medium => "Medium risk"
  | Tier.Stable => "Stable"

lemma sw_high_high (t : String) :
    strStartsWith ("High risk: Patient shows " ++ t) "High risk" = true := by
  cases t
  rfl

lemma sw_high_med (t : String) :
    strStartsWith ("High risk: Patient shows " ++ t) "Medium risk" = false := by
  cases t
  rfl

lemma sw_high_stable (t : String) :
    strStartsWith ("High risk: Patient shows " ++ t) "Stable" = false := by
  cases t
  rfl

lemma sw_med_high (t : String) :
    strStartsWith ("Medium risk: Behavioral changes detected (" ++ t) "High risk" = false := by
  cases t
  rfl

lemma sw_med_med (t : String) :
    strStartsWith ("Medium risk: Behavioral changes detected (" ++ t) "Medium risk" = true := by
  cases t
  rfl

lemma sw_med_stable (t : String) :
    strStartsWith ("Medium risk: Behavioral changes detected (" ++ t) "Stable" = false := by
  cases t
  rfl

lemma sw_stable_high :
    strStartsWith
      "Stable: No concerning behavioral changes detected. Continue routine monitoring."
      "High risk" = false := rfl

lemma sw_stable_med :
    strStartsWith
      "Stable: No concerning behavioral changes detected. Continue routine monitoring."
      "Medium risk" = false := rfl

lemma sw_stable_stable :
    strStartsWith
      "Stable: No concerning behavioral changes detected. Continue routine monitoring."
      "Stable" = true := rfl

lemma insight_startsWith_tierTag (q : ℚ) (p : Bool) (s : Summary) :
    strStartsWith (generate_insight q p s) (tierTag (classify q p s)) = true := by
  unfold generate_insight classify
  split_ifs
  · exact sw_high_high _
  · exact sw_med_med _
  · exact sw_stable_stable

/-- A one-patient table with 5 records, for exercising the output row
shape. -/
def dfKeys : List Record := [bRec, bRec, bRec, bRec, bRec]

/-- C5 counterexample: on a concrete batch the output record holds exactly
the four fields patient_id, risk_score, progress and insight: there is no
distinct tier field, contrary to the claim. -/
theorem tier_field_missing :
    ((analyze_all_patients fitZero dfKeys).map (fun row => row.map Prod.fst) =
      [["patient_id", "risk_score", "progress", "insight"]]) ∧
    ¬("tier" ∈ ((analyze_all_patients fitZero dfKeys).headD []).map Prod.fst) := by
  have h : analyze_all_patients fitZero dfKeys =
      [runPipeline fitZero "b" (seriesOf dfKeys "b")] := rfl
  rw [h]
  constructor
  · simp [keys_runPipeline]
  · simp [keys_runPipeline]

/-- C5 amended: generate_insight yields a single string, delivered as the
insight field; every output row carries exactly the four fields
patient_id, risk_score, progress and insight, and the tier is recoverable
from the prefix of the insight string. -/
theorem insight_single_string (fit : List Record → List ℚ) (df : List Record)
    (row : RiskRow) (h : row ∈ analyze_all_patients fit df) :
    row.map Prod.fst = ["patient_id", "risk_score", "progress", "insight"] ∧
    ∃ q p s, row.lookup "insight" = some (Value.str (generate_insight q p s)) ∧
      strStartsWith (generate_insight q p s) (tierTag (classify q p s)) = true := by
  obtain ⟨pid, hmem, hlen, heq⟩ := mem_analyze_eq fit df row h
  subst heq
  exact ⟨keys_runPipeline fit pid (seriesOf df pid),
    detect_concern (fit (seriesOf df pid)) (seriesOf df pid),
    has_made_progress (seriesOf df pid), summarize_changes (seriesOf df pid),
    lookup_insight_runPipeline fit pid (seriesOf df pid),
    insight_startsWith_tierTag _ _ _⟩

theorem insight_single_string_witness :
    (runPipeline fitZero "b" (seriesOf dfKeys "b")).map Prod.fst =
      ["patient_id", "risk_score", "progress", "insight"] := by
  have h : analyze_all_patients fitZero dfKeys =
      [runPipeline fitZero "b" (seriesOf dfKeys "b")] := rfl
  exact (insight_single_string fitZero dfKeys _
    (by rw [h]; exact List.mem_singleton.mpr rfl)).1

lemma filterMapCongr {α β : Type} (f g : α → Option β) (l : List α)
    (h : ∀ a ∈ l, f a = g a) : l.filterMap f = l.filterMap g := by
  induction l with
  | nil => rfl
  | cons x xs ih =>
    have hx := h x (List.mem_cons_self x xs)
    have ih' := ih (fun a ha => h a (List.mem_cons_of_mem x ha))
    simp only [List.filterMap_cons, hx, ih']

/-- C9: given the fitting step as a fixed function of the series (the
source fixes random_state 42, making the fitted model deterministic), the
batch output is fully determined by the per-patient series: any two tables
with the same patient list and the same per-patient series produce
identical assessments. -/
theorem pipeline_deterministic (fit : List Record → List ℚ) (df df2 : List Record)
    (hids : uniquePids df = uniquePids df2)
    (hser : ∀ pid, seriesOf df pid = seriesOf df2 pid) :
    analyze_all_patients fit df = analyze_all_patients fit df2 := by
  unfold analyze_all_patients
  rw [← hids]
  exact filterMapCongr _ _ _ (fun pid _ => by rw [hser pid])

/-- Patient a then patient b, blocked. -/
def dfDetA : List Record := [aRec, aRec, aRec, aRec, aRec, bRec, bRec, bRec, bRec, bRec]

/-- The same records interleaved: per-patient series are unchanged. -/
def dfDetB : List Record := [aRec, bRec, aRec, bRec, aRec, bRec, aRec, bRec, aRec, bRec]

theorem pipeline_deterministic_witness :
    analyze_all_patients fitZero dfDetA = analyze_all_patients fitZero dfDetB := by
  refine pipeline_deterministic fitZero dfDetA dfDetB rfl ?_
  intro pid
  by_cases h1 : pid = "a"
  · subst h1
    rfl
  · by_cases h2 : pid = "b"
    · subst h2
      rfl
    · have ha : ¬("a" = pid) := fun h => h1 h.symm
      have hb : ¬("b" = pid) := fun h => h2 h.symm
      simp [seriesOf, dfDetA, dfDetB, aRec, bRec, List.filter, ha, hb]

lemma mem_insertByRisk (row x : RiskRow) (l : List RiskRow) :
    x ∈ insertByRisk row l ↔ x ∈ row :: l := by
  induction l with
  | nil => simp [insertByRisk]
  | cons r rs ih =>
    unfold insertByRisk
    split_ifs
    · exact Iff.rfl
    · simp only [List.mem_cons, ih]
      tauto

lemma mem_sortByRisk (l : List RiskRow) (x : RiskRow) : x ∈ sortByRisk l ↔ x ∈ l := by
  induction l with
  | nil => exact Iff.rfl
  | cons r rs ih =>
    simp only [sortByRisk, mem_insertByRisk, List.mem_cons, ih]

/-- C10: every insight string begins with exactly the label of its tier
(High risk, Medium risk or Stable), and the standalone triage view - the
rows whose insight starts with High risk, sorted ascending by risk_score -
holds exactly the rows of the batch output whose insight starts with High
risk. -/
theorem high_risk_view_spec :
    (∀ (q : ℚ) (p : Bool) (s : Summary),
      (strStartsWith (generate_insight q p s) "High risk" = true ↔
        classify q p s = Tier.High) ∧
      (strStartsWith (generate_insight q p s) "Medium risk" = true ↔
        classify q p s = Tier.Medium) ∧
      (strStartsWith (generate_insight q p s) "Stable" = true ↔
        classify q p s = Tier.Stable)) ∧
    (∀ (rows : List RiskRow) (row : RiskRow),
      row ∈ high_risk_view rows ↔
        row ∈ rows ∧ strStartsWith (insightOf row) "High risk" = true) := by
  constructor
  · intro q p s
    unfold generate_insight classify
    split_ifs
    · exact ⟨iff_of_true (sw_high_high _) rfl,
        iff_of_false (by simp [sw_high_med]) (by simp),
        iff_of_false (by simp [sw_high_stable]) (by simp)⟩
    · exact ⟨iff_of_false (by simp [sw_med_high]) (by simp),
        iff_of_true (sw_med_med _) rfl,
        iff_of_false (by simp [sw_med_stable]) (by simp)⟩
    · exact ⟨iff_of_false (by simp [sw_stable_high]) (by simp),
        iff_of_false (by simp [sw_stable_med]) (by simp),
        iff_of_true sw_stable_stable rfl⟩
  · intro rows row
    unfold high_risk_view
    rw [mem_sortByRisk, List.mem_filter]

end RiskEngine
